import Mathlib

/-!
Shallow embedding of the temporary-html page store (src/app/models.py and
src/app/main.py).

Time is modelled as an `Int` count of seconds (UTC); `timedelta(days = d)`
is `d * 86400` seconds.  The database is a list of rows; the SQLAlchemy
query `db.query(HTMLPage).filter(HTMLPage.id == page_id).first()` is
`List.find?`, row deletion by primary key is `List.filter`, and the bulk
delete of `cleanup_expired_pages` is a filter plus the count of the rows
the filter removed.  Uploaded file bytes are a `List Nat` of byte values;
Python's strict `bytes.decode('utf-8')` is `utf8Decode`, returning `none`
exactly where Python raises `UnicodeDecodeError`.  Handlers become pure
functions from the store to (new store, outcome); an uncaught exception
escaping a handler (FastAPI turns it into a 500 response) is the outcome
`serverError`, distinct from a deliberate `HTTPException` with a status
and detail string.  The `deleteOk` flag on the read handlers models
whether the best-effort `db.delete`/`db.commit` pair succeeds; the source
has no try/except around it, so a failure aborts the handler before the
`raise HTTPException(404)` line.
-/

/-- models.py `HTMLPage`: one stored page row. -/
structure HTMLPage where
  id : String
  content : String
  created_at : Int
  expires_at : Option Int
  content_size : Nat
  deriving DecidableEq

/-- One day of `timedelta(days=1)`, in seconds. -/
def secondsPerDay : Int := 86400

/-- models.py `HTMLPage.calculate_expiration`: `None` or non-positive days
mean indefinite, otherwise now plus that many days. -/
def calculate_expiration (now : Int) (days : Option Int) : Option Int :=
  match days with
  | none => none
  | some d => if d ≤ 0 then none else some (now + d * secondsPerDay)

/-- models.py `HTMLPage.is_expired`: false when `expires_at` is NULL, else
`datetime.now(timezone.utc) > self.expires_at`. -/
def is_expired (p : HTMLPage) (now : Int) : Bool :=
  match p.expires_at with
  | none => false
  | some e => decide (now > e)

/-- models.py `HTMLPage.time_remaining`: human-readable remaining time. -/
def time_remaining (p : HTMLPage) (now : Int) : String :=
  match p.expires_at with
  | none => "Never expires"
  | some e =>
    let delta := e - now
    if delta ≤ 0 then "Expired"
    else
      let days := delta / secondsPerDay
      let hours := (delta % secondsPerDay) / 3600
      if days > 0 then
        toString days ++ " day(s), " ++ toString hours ++ " hour(s)"
      else
        toString hours ++ " hour(s)"

/-- The persisted collection of rows of the `html_pages` table. -/
abbrev Store := List HTMLPage

/-- `db.query(HTMLPage).filter(HTMLPage.id == page_id).first()`. -/
def findPage (page_id : String) (db : Store) : Option HTMLPage :=
  db.find? (fun p => p.id == page_id)

/-- `db.delete(page); db.commit()`: remove the row with this primary key. -/
def deletePage (page_id : String) (db : Store) : Store :=
  db.filter (fun p => !(p.id == page_id))

/-- The row filter of main.py `cleanup_expired_pages`:
`HTMLPage.expires_at.isnot(None), HTMLPage.expires_at < now`. -/
def expiredFilter (now : Int) (p : HTMLPage) : Bool :=
  match p.expires_at with
  | none => false
  | some e => decide (e < now)

/-- main.py `cleanup_expired_pages`: bulk-delete every expired row and
return the surviving store together with the deleted count. -/
def cleanup_expired_pages (now : Int) (db : Store) : Store × Nat :=
  (db.filter (fun p => !(expiredFilter now p)),
   (db.filter (expiredFilter now)).length)

/-- Outcome of the view handler: the served HTML body, a deliberate
`HTTPException`, or an uncaught exception (a 500 to the client). -/
inductive ViewOutcome where
  | ok (body : String)
  | httpError (status : Nat) (detail : String)
  | serverError
  deriving DecidableEq

/-- main.py `view_page` (GET /link/\x7bpage_id\x7d).  `deleteOk` says whether
the lazy `db.delete`/`db.commit` of an expired row succeeds; on failure the
exception escapes before the `raise HTTPException(404)` line. -/
def view_page (deleteOk : Bool) (now : Int) (page_id : String) (db : Store) :
    Store × ViewOutcome :=
  match findPage page_id db with
  | none => (db, .httpError 404 "Page not found")
  | some page =>
    if is_expired page now then
      if deleteOk then
        (deletePage page.id db, .httpError 404 "Page has expired")
      else
        (db, .serverError)
    else
      (db, .ok page.content)

/-- Is `b` a UTF-8 continuation byte (0x80–0xBF)? -/
def isCont (b : Nat) : Bool := 128 ≤ b && b ≤ 191

/-- Strict UTF-8 decoding of a byte list to a character list, as Python's
`bytes.decode('utf-8')`: rejects overlong forms, surrogates and code
points above U+10FFFF; `none` where Python raises `UnicodeDecodeError`. -/
def utf8DecodeChars : List Nat → Option (List Char)
  | [] => some []
  | b :: rest =>
    if b ≤ 127 then
      (utf8DecodeChars rest).map (fun cs => Char.ofNat b :: cs)
    else if 194 ≤ b && b ≤ 223 then
      match rest with
      | b2 :: rest2 =>
        if isCont b2 then
          (utf8DecodeChars rest2).map
            (fun cs => Char.ofNat ((b - 192) * 64 + (b2 - 128)) :: cs)
        else none
      | [] => none
    else if 224 ≤ b && b ≤ 239 then
      match rest with
      | b2 :: b3 :: rest3 =>
        if (((if b == 224 then 160 else 128) ≤ b2) &&
            (b2 ≤ (if b == 237 then 159 else 191))) && isCont b3 then
          (utf8DecodeChars rest3).map
            (fun cs =>
              Char.ofNat ((b - 224) * 4096 + (b2 - 128) * 64 + (b3 - 128)) :: cs)
        else none
      | _ => none
    else if 240 ≤ b && b ≤ 244 then
      match rest with
      | b2 :: b3 :: b4 :: rest4 =>
        if ((((if b == 240 then 144 else 128) ≤ b2) &&
             (b2 ≤ (if b == 244 then 143 else 191))) &&
            isCont b3) && isCont b4 then
          (utf8DecodeChars rest4).map
            (fun cs =>
              Char.ofNat ((b - 240) * 262144 + (b2 - 128) * 4096 +
                          (b3 - 128) * 64 + (b4 - 128)) :: cs)
        else none
      | _ => none
    else none

/-- Python `bytes.decode('utf-8')` to a `String`. -/
def utf8Decode (bs : List Nat) : Option String :=
  (utf8DecodeChars bs).map (fun cs => String.mk cs)

/-- `len(s.encode('utf-8'))`: the UTF-8 byte length of a string. -/
def utf8Length (s : String) : Nat :=
  s.data.foldl (fun n c => n + c.utf8Size) 0

/-- Python `str.strip()`: the string with leading and trailing whitespace
removed. -/
def pyStrip (s : String) : String :=
  String.mk (((s.data.dropWhile Char.isWhitespace).reverse.dropWhile
    Char.isWhitespace).reverse)

/-- A multipart upload: `UploadFile` with its filename and raw bytes. -/
structure UploadFileArg where
  filename : String
  bytes : List Nat
  deriving DecidableEq

/-- Outcome of an upload handler: the created row (the JSON response is
derived from its fields), a deliberate `HTTPException`, or an uncaught
exception. -/
inductive UploadOutcome where
  | created (page : HTMLPage)
  | httpError (status : Nat) (detail : String)
  | serverError
  deriving DecidableEq

/-- Python truthiness of `html_file and html_file.filename`. -/
def fileTruthy (f : Option UploadFileArg) : Bool :=
  match f with
  | none => false
  | some fl => fl.filename != ""

/-- Python truthiness of the `html_content` form field. -/
def contentTruthy (c : Option String) : Bool :=
  match c with
  | none => false
  | some s => s != ""

/-- main.py `EXPIRATION_OPTIONS`: the valid selectors and their day
counts (`"0"` maps to `None`, indefinite). -/
def EXPIRATION_OPTIONS : String → Option (Option Int)
  | "1" => some (some 1)
  | "7" => some (some 7)
  | "30" => some (some 30)
  | "0" => some none
  | _ => none

/-- The content-acquisition phase of main.py `upload_html` (lines 84–99):
read from the file when one was sent, else from the form field, enforcing
the size limit.  The file branch decodes without a try/except, so invalid
UTF-8 bytes escape as an uncaught `UnicodeDecodeError` (`serverError`). -/
def upload_get_content (maxUploadSize : Nat) (html_content : Option String)
    (html_file : Option UploadFileArg) : Except UploadOutcome (Option String) :=
  if fileTruthy html_file then
    match html_file with
    | some fl =>
      if fl.bytes.length > maxUploadSize then
        .error (.httpError 413 "File too large")
      else
        match utf8Decode fl.bytes with
        | none => .error .serverError
        | some s => .ok (some s)
    | none => .ok none
  else if contentTruthy html_content then
    match html_content with
    | some c =>
      if utf8Length c > maxUploadSize then
        .error (.httpError 413 "Content too large")
      else .ok (some c)
    | none => .ok none
  else .ok none

/-- main.py `upload_html` (POST /upload).  `newId` stands for the value of
`HTMLPage.generate_id()`, `now` for `datetime.now(timezone.utc)`. -/
def upload_html (newId : String) (now : Int) (maxUploadSize : Nat)
    (html_content : Option String) (html_file : Option UploadFileArg)
    (expiration : String) (db : Store) : Store × UploadOutcome :=
  match upload_get_content maxUploadSize html_content html_file with
  | .error out => (db, out)
  | .ok contentOpt =>
    match contentOpt with
    | none => (db, .httpError 400 "No HTML content provided")
    | some content =>
      if pyStrip content == "" then
        (db, .httpError 400 "No HTML content provided")
      else
        match EXPIRATION_OPTIONS expiration with
        | none => (db, .httpError 400 "Invalid expiration option")
        | some days =>
          let page : HTMLPage :=
            { id := newId, content := content, created_at := now,
              expires_at := calculate_expiration now days,
              content_size := utf8Length content }
          (db ++ [page], .created page)

/-- main.py `api_upload_html` (POST /api/upload).  Decoding failure is
caught here and mapped to a 400; `content_size` is the raw byte length. -/
def api_upload_html (newId : String) (now : Int) (maxUploadSize : Nat)
    (html_file : Option UploadFileArg) (expiration : Int) (db : Store) :
    Store × UploadOutcome :=
  match html_file with
  | none => (db, .httpError 400 "No file provided")
  | some fl =>
    if fl.bytes.length > maxUploadSize then
      (db, .httpError 413 "File too large")
    else
      match utf8Decode fl.bytes with
      | none => (db, .httpError 400 "File must be valid UTF-8 text")
      | some content_str =>
        if pyStrip content_str == "" then
          (db, .httpError 400 "Empty file")
        else
          let days : Option Int := if expiration ≤ 0 then none else some expiration
          let page : HTMLPage :=
            { id := newId, content := content_str, created_at := now,
              expires_at := calculate_expiration now days,
              content_size := fl.bytes.length }
          (db ++ [page], .created page)

/-- The JSON body returned by main.py `page_info` on success. -/
structure PageInfoBody where
  id : String
  created_at : Int
  expires_at : Option Int
  time_remaining : String
  size_bytes : Nat
  deriving DecidableEq

/-- Outcome of the info handler. -/
inductive InfoOutcome where
  | ok (body : PageInfoBody)
  | httpError (status : Nat) (detail : String)
  | serverError
  deriving DecidableEq

/-- main.py `page_info` (GET /api/info/\x7bpage_id\x7d), with the same lazy
expired-row deletion as `view_page`. -/
def page_info (deleteOk : Bool) (now : Int) (page_id : String) (db : Store) :
    Store × InfoOutcome :=
  match findPage page_id db with
  | none => (db, .httpError 404 "Page not found")
  | some page =>
    if is_expired page now then
      if deleteOk then
        (deletePage page.id db, .httpError 404 "Page has expired")
      else
        (db, .serverError)
    else
      (db, .ok { id := page.id, created_at := page.created_at,
                 expires_at := page.expires_at,
                 time_remaining := time_remaining page now,
                 size_bytes := page.content_size })

/-! ### Shared lemmas about the embedded store operations -/

theorem expiredFilter_eq_is_expired (now : Int) (p : HTMLPage) :
    expiredFilter now p = is_expired p now := by
  unfold expiredFilter is_expired
  cases p.expires_at <;> rfl

theorem expiredFilter_iff (now : Int) (p : HTMLPage) :
    expiredFilter now p = true ↔ ∃ e, p.expires_at = some e ∧ e < now := by
  unfold expiredFilter
  cases hp : p.expires_at <;> simp

theorem length_filter_not_add {α : Type} (q : α → Bool) (l : List α) :
    (l.filter fun a => !q a).length + (l.filter q).length = l.length := by
  induction l with
  | nil => rfl
  | cons a l ih =>
    cases hq : q a <;> simp [List.filter_cons, hq] <;> omega

theorem findPage_some_id {pid : String} {db : Store} {page : HTMLPage}
    (h : findPage pid db = some page) : page.id = pid := by
  have hb := List.find?_some h
  simpa using hb

theorem findPage_deletePage (pid : String) (db : Store) :
    findPage pid (deletePage pid db) = none := by
  unfold findPage deletePage
  rw [List.find?_eq_none]
  intro x hx
  have hx2 := (List.mem_filter.mp hx).2
  simpa using hx2

/-! ### Claims -/

/-- C2: a page is expired iff its `expires_at` is non-null and strictly
below the current time; a null `expires_at` never expires, and a page
whose `expires_at` equals the current time exactly is not yet expired. -/
theorem c2_is_expired_strict (p : HTMLPage) (now : Int) :
    (is_expired p now = true ↔ ∃ e, p.expires_at = some e ∧ e < now) ∧
    is_expired { p with expires_at := none } now = false ∧
    is_expired { p with expires_at := some now } now = false := by
  refine ⟨?_, rfl, by simp [is_expired]⟩
  unfold is_expired
  cases hp : p.expires_at <;> simp

/-- C8: the per-page expiry predicate of the read path and the bulk filter
of the sweep agree on every page and time: a page survives the sweep at
time `now` iff a read at `now` would judge it not expired. -/
theorem c8_read_sweep_agree (now : Int) (p : HTMLPage) (db : Store)
    (hp : p ∈ db) :
    expiredFilter now p = is_expired p now ∧
    (p ∈ (cleanup_expired_pages now db).1 ↔ is_expired p now = false) := by
  refine ⟨expiredFilter_eq_is_expired now p, ?_⟩
  unfold cleanup_expired_pages
  simp [List.mem_filter, hp, expiredFilter_eq_is_expired]

/-- C9: fetching a present, non-expired page returns its content and
leaves the store entirely unchanged, whether or not deletes could fail. -/
theorem c9_live_read_no_side_effects (deleteOk : Bool) (now : Int)
    (pid : String) (db : Store) (page : HTMLPage)
    (hf : findPage pid db = some page) (he : is_expired page now = false) :
    view_page deleteOk now pid db = (db, .ok page.content) := by
  unfold view_page
  rw [hf]
  simp [he]

/-- C5: the sweep removes exactly the records with a non-null `expires_at`
strictly below now, returns the number removed, and a second sweep with no
intervening creations removes zero records. -/
theorem c5_sweep_exact (now : Int) (db : Store) :
    (∀ p, p ∈ (cleanup_expired_pages now db).1 ↔
        p ∈ db ∧ ¬∃ e, p.expires_at = some e ∧ e < now) ∧
    (cleanup_expired_pages now db).1.length + (cleanup_expired_pages now db).2
      = db.length ∧
    cleanup_expired_pages now (cleanup_expired_pages now db).1 =
      ((cleanup_expired_pages now db).1, 0) := by
  refine ⟨?_, ?_, ?_⟩
  · intro p
    unfold cleanup_expired_pages
    rw [List.mem_filter, ← expiredFilter_iff]
    cases h : expiredFilter now p <;> simp [h]
  · exact length_filter_not_add _ _
  · simp [cleanup_expired_pages, List.filter_filter, Bool.and_self,
      Bool.and_not_self]

/-! ### Concrete sample rows used to instantiate the general theorems -/

/-- A row that is expired at any time after 10. -/
def pageExpired : HTMLPage :=
  { id := "gone", content := "<p>old</p>", created_at := 0,
    expires_at := some 10, content_size := 10 }

/-- A row that is live at time 50 (expires at 100). -/
def pageLive : HTMLPage :=
  { id := "live", content := "<p>new</p>", created_at := 0,
    expires_at := some 100, content_size := 10 }

/-- A row with no expiry. -/
def pageForever : HTMLPage :=
  { id := "keep", content := "<p>k</p>", created_at := 0,
    expires_at := none, content_size := 8 }

/-- A small store holding one expired, one live and one indefinite row. -/
def sampleDb : Store := [pageExpired, pageLive, pageForever]

/-- C8 witness at the expired sample row, time 50. -/
theorem c8_read_sweep_agree_witness :
    expiredFilter 50 pageExpired = is_expired pageExpired 50 ∧
    (pageExpired ∈ (cleanup_expired_pages 50 sampleDb).1 ↔
      is_expired pageExpired 50 = false) :=
  c8_read_sweep_agree 50 pageExpired sampleDb (by decide)

/-- C9 witness: reading the live sample row at time 50 changes nothing. -/
theorem c9_live_read_witness :
    view_page true 50 "live" sampleDb = (sampleDb, .ok pageLive.content) :=
  c9_live_read_no_side_effects true 50 "live" sampleDb pageLive
    (by decide) (by decide)

/-- C3 (amended): fetching a present-but-expired id deletes the row and
returns 404 when the delete succeeds, and any later fetch of that id is
404 again; but when the delete fails, the failure escapes the handler as
an error instead of the 404 the claim promises. -/
theorem c3_expired_fetch_deletes (now t2 : Int) (pid : String) (db : Store)
    (page : HTMLPage) (hf : findPage pid db = some page)
    (he : is_expired page now = true) :
    view_page true now pid db =
      (deletePage pid db, .httpError 404 "Page has expired") ∧
    view_page false now pid db = (db, .serverError) ∧
    view_page true t2 pid (deletePage pid db) =
      (deletePage pid db, .httpError 404 "Page not found") := by
  have hid : page.id = pid := findPage_some_id hf
  refine ⟨?_, ?_, ?_⟩
  · unfold view_page
    rw [hf]
    simp [he, hid]
  · unfold view_page
    rw [hf]
    simp [he]
  · unfold view_page
    rw [findPage_deletePage]

/-- C3 counterexample: with the expired sample row present and the lazy
delete failing, the view handler ends in an uncaught error, not in the
NotFound the claim says the caller still receives. -/
theorem c3_counterexample :
    (view_page false 50 "gone" [pageExpired]).2 = ViewOutcome.serverError ∧
    (view_page false 50 "gone" [pageExpired]).2 ≠
      ViewOutcome.httpError 404 "Page not found" ∧
    (view_page false 50 "gone" [pageExpired]).2 ≠
      ViewOutcome.httpError 404 "Page has expired" := by
  decide

/-- C3 witness at the expired sample row. -/
theorem c3_expired_fetch_deletes_witness :
    view_page true 50 "gone" [pageExpired] =
      (deletePage "gone" [pageExpired], .httpError 404 "Page has expired") ∧
    view_page false 50 "gone" [pageExpired] =
      ([pageExpired], .serverError) ∧
    view_page true 60 "gone" (deletePage "gone" [pageExpired]) =
      (deletePage "gone" [pageExpired], .httpError 404 "Page not found") :=
  c3_expired_fetch_deletes 50 60 "gone" [pageExpired] pageExpired
    (by decide) (by decide)

/-- C7 (amended): a never-created id and a present-but-expired id both
produce status 404, but with different detail strings — "Page not found"
versus "Page has expired" — so the two responses share only the status
code, not the body. -/
theorem c7_both_404_different_details (now : Int) (pid1 pid2 : String)
    (db : Store) (page : HTMLPage) (h1 : findPage pid1 db = none)
    (h2 : findPage pid2 db = some page) (he : is_expired page now = true) :
    (view_page true now pid1 db).2 = .httpError 404 "Page not found" ∧
    (view_page true now pid2 db).2 = .httpError 404 "Page has expired" := by
  constructor
  · unfold view_page
    rw [h1]
  · unfold view_page
    rw [h2]
    simp [he]

/-- C7 counterexample: at time 50 the store holding only the expired
sample row answers a fetch of the absent id "nope" and of the expired id
"gone" with different response bodies, so the two cases are externally
distinguishable. -/
theorem c7_counterexample :
    (view_page true 50 "nope" [pageExpired]).2 =
      ViewOutcome.httpError 404 "Page not found" ∧
    (view_page true 50 "gone" [pageExpired]).2 =
      ViewOutcome.httpError 404 "Page has expired" ∧
    (view_page true 50 "nope" [pageExpired]).2 ≠
      (view_page true 50 "gone" [pageExpired]).2 := by
  decide

/-- C7 witness at the sample store. -/
theorem c7_both_404_witness :
    (view_page true 50 "nope" [pageExpired]).2 =
      .httpError 404 "Page not found" ∧
    (view_page true 50 "gone" [pageExpired]).2 =
      .httpError 404 "Page has expired" :=
  c7_both_404_different_details 50 "nope" "gone" [pageExpired] pageExpired
    (by decide) (by decide) (by decide)

/-- C10: the metadata endpoint applies the same lazy expiry enforcement as
the view endpoint: on a present-but-expired id it deletes the row, answers
404 "Page has expired" rather than stale metadata, and afterwards the id
is gone, so later lookups answer 404 "Page not found". -/
theorem c10_info_lazy_expiry (now t2 : Int) (pid : String) (db : Store)
    (page : HTMLPage) (hf : findPage pid db = some page)
    (he : is_expired page now = true) :
    page_info true now pid db =
      (deletePage pid db, .httpError 404 "Page has expired") ∧
    findPage pid (deletePage pid db) = none ∧
    page_info true t2 pid (deletePage pid db) =
      (deletePage pid db, .httpError 404 "Page not found") := by
  have hid : page.id = pid := findPage_some_id hf
  refine ⟨?_, findPage_deletePage pid db, ?_⟩
  · unfold page_info
    rw [hf]
    simp [he, hid]
  · unfold page_info
    rw [findPage_deletePage]

/-- C10 witness at the expired sample row. -/
theorem c10_info_lazy_expiry_witness :
    page_info true 50 "gone" [pageExpired] =
      (deletePage "gone" [pageExpired], .httpError 404 "Page has expired") ∧
    findPage "gone" (deletePage "gone" [pageExpired]) = none ∧
    page_info true 60 "gone" (deletePage "gone" [pageExpired]) =
      (deletePage "gone" [pageExpired], .httpError 404 "Page not found") :=
  c10_info_lazy_expiry 50 60 "gone" [pageExpired] pageExpired
    (by decide) (by decide)

theorem EXPIRATION_OPTIONS_cases {R : String} {d : Option Int}
    (h : EXPIRATION_OPTIONS R = some d) :
    d = none ∨ ∃ n, d = some n ∧ 0 < n := by
  unfold EXPIRATION_OPTIONS at h
  split at h
  · injection h with h1
    subst h1
    exact Or.inr ⟨1, rfl, by norm_num⟩
  · injection h with h1
    subst h1
    exact Or.inr ⟨7, rfl, by norm_num⟩
  · injection h with h1
    subst h1
    exact Or.inr ⟨30, rfl, by norm_num⟩
  · injection h with h1
    subst h1
    exact Or.inl rfl
  · exact absurd h (by simp)

theorem find?_append_of_none {α : Type} {p : α → Bool} {l1 l2 : List α}
    (h : l1.find? p = none) : (l1 ++ l2).find? p = l2.find? p := by
  simp [List.find?_append, h]

/-- C1: creating a page from valid form content `C` under a valid
retention selector `R` stores a row with content `C` verbatim, size equal
to the UTF-8 byte length of `C`, creation time `now`, expiry null for the
indefinite selector and `created_at + R days` otherwise, and an immediate
fetch of the returned id serves exactly `C` without touching the store. -/
theorem c1_create_then_fetch (C R newId : String) (d : Option Int)
    (now : Int) (maxSize : Nat) (db : Store)
    (hC : pyStrip C ≠ "")
    (hSize : utf8Length C ≤ maxSize)
    (hR : EXPIRATION_OPTIONS R = some d)
    (hFresh : findPage newId db = none) :
    ∃ page,
      upload_html newId now maxSize (some C) none R db
        = (db ++ [page], .created page) ∧
      page.id = newId ∧ page.content = C ∧
      page.content_size = utf8Length C ∧
      page.created_at = now ∧
      (d = none → page.expires_at = none) ∧
      (∀ n, d = some n →
        page.expires_at = some (page.created_at + n * secondsPerDay)) ∧
      view_page true now newId (db ++ [page]) = (db ++ [page], .ok C) := by
  have hCne : C ≠ "" := by
    intro hnil
    exact hC (by rw [hnil]; rfl)
  have hns : ¬ (utf8Length C > maxSize) := by omega
  have hstep : upload_get_content maxSize (some C) none = .ok (some C) := by
    unfold upload_get_content
    simp [fileTruthy, contentTruthy, bne_iff_ne, hCne, hns]
  have hps : (pyStrip C == "") = false := by
    simp [hC]
  refine ⟨⟨newId, C, now, calculate_expiration now d, utf8Length C⟩,
    ?_, rfl, rfl, rfl, rfl, ?_, ?_, ?_⟩
  · unfold upload_html
    rw [hstep]
    simp [hps, hR]
  · intro hdn
    subst hdn
    rfl
  · intro n hdn
    subst hdn
    have hn : 0 < n := by
      rcases EXPIRATION_OPTIONS_cases hR with h | ⟨m, hm, hmpos⟩
      · exact absurd h (by simp)
      · obtain rfl : n = m := by simpa using hm
        exact hmpos
    show (if n ≤ 0 then none else some (now + n * secondsPerDay) : Option Int)
      = some (now + n * secondsPerDay)
    rw [if_neg (by omega : ¬ n ≤ 0)]
  · have hfind : findPage newId
        (db ++ [⟨newId, C, now, calculate_expiration now d, utf8Length C⟩]) =
        some ⟨newId, C, now, calculate_expiration now d, utf8Length C⟩ := by
      unfold findPage at hFresh ⊢
      rw [find?_append_of_none hFresh]
      simp
    have hexp : is_expired
        ⟨newId, C, now, calculate_expiration now d, utf8Length C⟩ now = false := by
      rcases EXPIRATION_OPTIONS_cases hR with h | ⟨n, hn, hnpos⟩
      · subst h
        rfl
      · subst hn
        have hsp : (0 : Int) < secondsPerDay := by norm_num [secondsPerDay]
        have hprod : 0 < n * secondsPerDay := mul_pos hnpos hsp
        have hcalc : calculate_expiration now (some n) =
            some (now + n * secondsPerDay) := by
          show (if n ≤ 0 then none else some (now + n * secondsPerDay) : Option Int)
            = some (now + n * secondsPerDay)
          rw [if_neg (by omega : ¬ n ≤ 0)]
        simp [is_expired, hcalc]
        linarith
    unfold view_page
    rw [hfind]
    simp [hexp]

/-- C1 witness: the scenario from the spec, content `"<h1>hi</h1>"` with
the one-day selector in an empty store at time 0. -/
theorem c1_create_then_fetch_witness :
    ∃ page,
      upload_html "abc" 0 5242880 (some "<h1>hi</h1>") none "1" []
        = ([] ++ [page], .created page) ∧
      page.id = "abc" ∧ page.content = "<h1>hi</h1>" ∧
      page.content_size = utf8Length "<h1>hi</h1>" ∧
      page.created_at = 0 ∧
      (some (1 : Int) = none → page.expires_at = none) ∧
      (∀ n, some 1 = some n →
        page.expires_at = some (page.created_at + n * secondsPerDay)) ∧
      view_page true 0 "abc" ([] ++ [page]) = ([] ++ [page], .ok "<h1>hi</h1>") :=
  c1_create_then_fetch "<h1>hi</h1>" "1" "abc" (some 1) 0 5242880 []
    (by decide) (by decide) (by decide) (by decide)

/-- C4: at the Create level, an absent retention (`None`) and any
non-positive day count yield a null `expires_at` (indefinite), while a
positive `N` yields `created_at + N days`; composed through the API
endpoint, whose stored row shows exactly that expiry. -/
theorem c4_retention_mapping (newId : String) (now : Int) (maxSize : Nat)
    (fl : UploadFileArg) (n : Int) (db : Store) (s : String)
    (hLen : fl.bytes.length ≤ maxSize)
    (hDec : utf8Decode fl.bytes = some s)
    (hNE : pyStrip s ≠ "") :
    calculate_expiration now none = none ∧
    (n ≤ 0 → calculate_expiration now (some n) = none) ∧
    (0 < n → calculate_expiration now (some n)
      = some (now + n * secondsPerDay)) ∧
    ∃ page, api_upload_html newId now maxSize (some fl) n db
        = (db ++ [page], .created page) ∧
      page.created_at = now ∧
      (n ≤ 0 → page.expires_at = none) ∧
      (0 < n → page.expires_at
        = some (page.created_at + n * secondsPerDay)) := by
  have hns : ¬ (fl.bytes.length > maxSize) := by omega
  have hps : (pyStrip s == "") = false := by simp [hNE]
  refine ⟨rfl, ?_, ?_, ?_⟩
  · intro h
    show (if n ≤ 0 then none else some (now + n * secondsPerDay) : Option Int)
      = none
    rw [if_pos h]
  · intro h
    show (if n ≤ 0 then none else some (now + n * secondsPerDay) : Option Int)
      = some (now + n * secondsPerDay)
    rw [if_neg (by omega : ¬ n ≤ 0)]
  · refine ⟨⟨newId, s, now,
      calculate_expiration now (if n ≤ 0 then none else some n),
      fl.bytes.length⟩, ?_, rfl, ?_, ?_⟩
    · unfold api_upload_html
      simp [hns, hDec, hps]
    · intro h
      show calculate_expiration now (if n ≤ 0 then none else some n) = none
      rw [if_pos h]
      rfl
    · intro h
      show calculate_expiration now (if n ≤ 0 then none else some n)
        = some (now + n * secondsPerDay)
      rw [if_neg (by omega : ¬ n ≤ 0)]
      show (if n ≤ 0 then none else some (now + n * secondsPerDay) : Option Int)
        = some (now + n * secondsPerDay)
      rw [if_neg (by omega : ¬ n ≤ 0)]

/-- C4 witness: an API upload of "hi" with a 7-day retention at time 0. -/
theorem c4_retention_mapping_witness :
    calculate_expiration 0 none = none ∧
    ((7 : Int) ≤ 0 → calculate_expiration 0 (some 7) = none) ∧
    ((0 : Int) < 7 → calculate_expiration 0 (some 7)
      = some (0 + 7 * secondsPerDay)) ∧
    ∃ page, api_upload_html "abc" 0 100 (some ⟨"f", [104, 105]⟩) 7 []
        = ([] ++ [page], .created page) ∧
      page.created_at = 0 ∧
      ((7 : Int) ≤ 0 → page.expires_at = none) ∧
      ((0 : Int) < 7 → page.expires_at
        = some (page.created_at + 7 * secondsPerDay)) :=
  c4_retention_mapping "abc" 0 100 ⟨"f", [104, 105]⟩ 7 [] "hi"
    (by decide) (by decide) (by decide)

/-- C6 (amended): on both upload endpoints, every request that does not
create a page leaves the store unchanged; each validation failure
(missing file, oversize content, empty-after-trim content, invalid
retention selector, and invalid UTF-8 on the API endpoint) is a
synchronous HTTP error with a descriptive reason — except that on the
form endpoint an invalid-UTF-8 file escapes as an uncaught decode error
rather than a validation error, still with no storage mutation. -/
theorem c6_validation_no_mutation (newId : String) (now : Int)
    (maxSize : Nat) (hc : Option String) (hf : Option UploadFileArg)
    (e : String) (eInt : Int) (db : Store) :
    ((upload_html newId now maxSize hc hf e db).1 = db ∨
      ∃ page, upload_html newId now maxSize hc hf e db
        = (db ++ [page], .created page)) ∧
    ((api_upload_html newId now maxSize hf eInt db).1 = db ∨
      ∃ page, api_upload_html newId now maxSize hf eInt db
        = (db ++ [page], .created page)) ∧
    api_upload_html newId now maxSize none eInt db
      = (db, .httpError 400 "No file provided") ∧
    (∀ fl, hf = some fl → fl.bytes.length ≤ maxSize →
      utf8Decode fl.bytes = none →
      api_upload_html newId now maxSize hf eInt db
        = (db, .httpError 400 "File must be valid UTF-8 text") ∧
      (fl.filename ≠ "" →
        upload_html newId now maxSize hc hf e db = (db, .serverError))) ∧
    (∀ fl, hf = some fl → fl.filename ≠ "" → fl.bytes.length > maxSize →
      upload_html newId now maxSize hc hf e db
        = (db, .httpError 413 "File too large")) ∧
    (∀ c, hc = some c → c ≠ "" → fileTruthy hf = false →
      utf8Length c > maxSize →
      upload_html newId now maxSize hc hf e db
        = (db, .httpError 413 "Content too large")) ∧
    (∀ c, upload_get_content maxSize hc hf = .ok (some c) → pyStrip c = "" →
      upload_html newId now maxSize hc hf e db
        = (db, .httpError 400 "No HTML content provided")) ∧
    (∀ c, upload_get_content maxSize hc hf = .ok (some c) → pyStrip c ≠ "" →
      EXPIRATION_OPTIONS e = none →
      upload_html newId now maxSize hc hf e db
        = (db, .httpError 400 "Invalid expiration option")) ∧
    (∀ fl s, hf = some fl → fl.bytes.length ≤ maxSize →
      utf8Decode fl.bytes = some s → pyStrip s = "" →
      api_upload_html newId now maxSize hf eInt db
        = (db, .httpError 400 "Empty file")) := by
  refine ⟨?_, ?_, rfl, ?_, ?_, ?_, ?_, ?_, ?_⟩
  · unfold upload_html
    cases hg : upload_get_content maxSize hc hf with
    | error out => exact Or.inl rfl
    | ok copt =>
      cases copt with
      | none => exact Or.inl rfl
      | some c =>
        by_cases hstrip : pyStrip c = ""
        · have hbeq : (pyStrip c == "") = true := by simp [hstrip]
          exact Or.inl (by simp [hbeq])
        · have hbeq : (pyStrip c == "") = false := by simp [hstrip]
          cases ho : EXPIRATION_OPTIONS e with
          | none => exact Or.inl (by simp [hbeq, ho])
          | some days =>
            exact Or.inr ⟨⟨newId, c, now, calculate_expiration now days,
              utf8Length c⟩, by simp [hbeq, ho]⟩
  · unfold api_upload_html
    cases hf with
    | none => exact Or.inl rfl
    | some fl =>
      by_cases hlen : fl.bytes.length > maxSize
      · exact Or.inl (by simp [hlen])
      · cases hd : utf8Decode fl.bytes with
        | none => exact Or.inl (by simp [hlen, hd])
        | some s =>
          by_cases hstrip : pyStrip s = ""
          · have hbeq : (pyStrip s == "") = true := by simp [hstrip]
            exact Or.inl (by simp [hlen, hd, hbeq])
          · have hbeq : (pyStrip s == "") = false := by simp [hstrip]
            exact Or.inr ⟨⟨newId, s, now,
              calculate_expiration now
                (if eInt ≤ 0 then none else some eInt),
              fl.bytes.length⟩, by simp [hlen, hd, hbeq]⟩
  · intro fl hfl hlen hdec
    subst hfl
    constructor
    · unfold api_upload_html
      simp [show ¬ (fl.bytes.length > maxSize) by omega, hdec]
    · intro hfn
      unfold upload_html
      have hg : upload_get_content maxSize hc (some fl)
          = .error .serverError := by
        unfold upload_get_content
        simp [fileTruthy, bne_iff_ne, hfn,
          show ¬ (fl.bytes.length > maxSize) by omega, hdec]
      rw [hg]
  · intro fl hfl hfn hlen
    subst hfl
    unfold upload_html
    have hg : upload_get_content maxSize hc (some fl)
        = .error (.httpError 413 "File too large") := by
      unfold upload_get_content
      simp [fileTruthy, bne_iff_ne, hfn, hlen]
    rw [hg]
  · intro c hcEq hcne hft hsize
    subst hcEq
    unfold upload_html
    have hg : upload_get_content maxSize (some c) hf
        = .error (.httpError 413 "Content too large") := by
      unfold upload_get_content
      simp [hft, contentTruthy, bne_iff_ne, hcne, hsize]
    rw [hg]
  · intro c hg hstrip
    unfold upload_html
    rw [hg]
    have hbeq : (pyStrip c == "") = true := by simp [hstrip]
    simp [hbeq]
  · intro c hg hstrip ho
    unfold upload_html
    rw [hg]
    have hbeq : (pyStrip c == "") = false := by simp [hstrip]
    simp [hbeq, ho]
  · intro fl s hfl hlen hdec hstrip
    subst hfl
    unfold api_upload_html
    have hbeq : (pyStrip s == "") = true := by simp [hstrip]
    simp [show ¬ (fl.bytes.length > maxSize) by omega, hdec, hbeq]

/-- C6 counterexample: a form upload of the single invalid byte 0xFF with
a nonempty filename ends in an uncaught decode error, not in any
`HTTPException` carrying a validation reason, refuting "the caller
receives a synchronous ValidationError" for this failing request. -/
theorem c6_counterexample :
    (upload_html "abc" 0 100 none (some ⟨"f.html", [255]⟩) "7" []).2
      = UploadOutcome.serverError ∧
    (match (upload_html "abc" 0 100 none (some ⟨"f.html", [255]⟩) "7" []).2 with
      | UploadOutcome.httpError _ _ => true
      | _ => false) = false ∧
    (upload_html "abc" 0 100 none (some ⟨"f.html", [255]⟩) "7" []).1 = [] := by
  decide
